import Mathlib

/-!
Verification development for the PersonaGuess similarity-ranking engine.

The Python sources embedded here are `backend/improved_similarity.py`
(namespace `ImprovedSim`) and `backend/main.py` (namespace `Backend`).
Real-valued arithmetic (Python floats) is modelled over `ℝ`; identifier
sets are `Finset String`; dictionaries with insertion order are
association lists `List (String × _)`.
-/

noncomputable section

namespace Np

/-- Dot product of two real vectors, as `np.dot` on equal-length 1-d arrays.
Only consulted after the callers' shape check (or on `v v`). -/
def dot : List ℝ → List ℝ → ℝ
  | x :: xs, y :: ys => x * y + dot xs ys
  | _, _ => 0

/-- Euclidean norm, as `np.linalg.norm`. -/
def linalg_norm (v : List ℝ) : ℝ := Real.sqrt (dot v v)

end Np

namespace ImprovedSim

/-- Source: `improved_similarity.cosine_similarity`.  Degenerate cases
(mismatched shape, zero magnitude) return exactly `0.0`. -/
def cosine_similarity (vec1 vec2 : List ℝ) : ℝ :=
  if vec1.length ≠ vec2.length ∨ Np.linalg_norm vec1 = 0 ∨ Np.linalg_norm vec2 = 0 then
    0.0
  else
    Np.dot vec1 vec2 / (Np.linalg_norm vec1 * Np.linalg_norm vec2)

/-- Source: `improved_similarity.jaccard_similarity`.  Both sets empty gives
`0.0`; otherwise intersection size over union size (guarded on union > 0). -/
def jaccard_similarity (set1 set2 : Finset String) : ℝ :=
  if set1 = ∅ ∧ set2 = ∅ then 0.0
  else if 0 < (set1 ∪ set2).card then
    ((set1 ∩ set2).card : ℝ) / ((set1 ∪ set2).card : ℝ)
  else 0.0

/-- Era buckets.  The data model fixes `era_category` to one of these seven
values (`unknown` doubles as the default for a missing key, matching
`metadata.get` with default `unknown` in the source). -/
inductive EraCategory where
  | pre_boomer
  | boomer
  | gen_x
  | millennial
  | millennial_late
  | gen_z
  | unknown
deriving DecidableEq, BEq, Repr

/-- Source: the `era_order` list inside `calculate_metadata_similarity`. -/
def era_order : List EraCategory :=
  [.pre_boomer, .boomer, .gen_x, .millennial, .millennial_late, .gen_z, .unknown]

/-- Position of an era bucket in `era_order`, as `era_order.index(...)`. -/
def eraIndex (e : EraCategory) : ℕ := era_order.indexOf e

/-- Era component of `calculate_metadata_similarity` (source lines 56-63):
start from the binary equality match, then overwrite with `0.5` when the
index distance in `era_order` is exactly 1. -/
def eraMatch (e1 e2 : EraCategory) : ℝ :=
  let era_match : ℝ := if e1 = e2 then 1.0 else 0.0
  let era_distance : ℕ := ((eraIndex e1 : ℤ) - (eraIndex e2 : ℤ)).natAbs
  if era_distance = 1 then 0.5 else era_match

/-- Structured metadata record.  `career_domain` is `Option` because the
source reads it with `metadata.get` (missing key gives `None`, and
`None == None` holds); `achievement_score` defaults to `0` and
`thematic_tags` to the empty set the same way. -/
structure Metadata where
  career_domain : Option String
  era_category : EraCategory
  achievement_score : ℝ
  thematic_tags : Finset String

/-- Per-component breakdown returned alongside the metadata score. -/
structure MetadataComponents where
  domain_match : ℝ
  era_match : ℝ
  achievement_similarity : ℝ
  tag_similarity : ℝ

/-- Weight of the career-domain component (source line 53). -/
def mw_domain : ℝ := 0.30

/-- Weight of the era component (source line 65). -/
def mw_era : ℝ := 0.20

/-- Weight of the achievement component (source line 74). -/
def mw_achievement : ℝ := 0.20

/-- Weight of the thematic-tag component (source line 81). -/
def mw_tags : ℝ := 0.30

/-- Source: `calculate_metadata_similarity`.  Returns the weighted score and
the component breakdown. -/
def calculate_metadata_similarity (metadata1 metadata2 : Metadata) :
    ℝ × MetadataComponents :=
  let domain_match : ℝ :=
    if metadata1.career_domain = metadata2.career_domain then 1.0 else 0.0
  let era_match : ℝ := eraMatch metadata1.era_category metadata2.era_category
  let max_achievement : ℝ :=
    max (max metadata1.achievement_score metadata2.achievement_score) 1.0
  let min_achievement : ℝ :=
    min metadata1.achievement_score metadata2.achievement_score
  let achievement_similarity : ℝ := min_achievement / max_achievement
  let tag_similarity : ℝ :=
    jaccard_similarity metadata1.thematic_tags metadata2.thematic_tags
  (domain_match * mw_domain + era_match * mw_era +
      achievement_similarity * mw_achievement + tag_similarity * mw_tags,
    ⟨domain_match, era_match, achievement_similarity, tag_similarity⟩)

/-- Aspect embeddings of an enriched profile.  The source reads each with
`embeddings.get(key, [])`, so a missing aspect behaves as the empty vector;
the fields here carry the value of that read. -/
structure AspectEmbeddings where
  career_embedding : List ℝ
  achievement_embedding : List ℝ
  biographical_embedding : List ℝ
  influence_embedding : List ℝ
  combined_embedding : List ℝ

/-- One entry of the improved-embeddings store: aspect embeddings plus
structured metadata (source keys `embeddings` and `metadata`). -/
structure EnrichedData where
  embeddings : AspectEmbeddings
  metadata : Metadata

/-- Aspect weight `career` (source `weights` dict). -/
def w_career : ℝ := 0.20

/-- Aspect weight `achievement`. -/
def w_achievement : ℝ := 0.15

/-- Aspect weight `biographical`. -/
def w_biographical : ℝ := 0.20

/-- Aspect weight `influence`. -/
def w_influence : ℝ := 0.10

/-- Aspect weight `combined`. -/
def w_combined : ℝ := 0.20

/-- Aspect weight `metadata`. -/
def w_metadata : ℝ := 0.15

/-- Result dictionary of `calculate_improved_narrative_similarity`:
`overall_score`, the five entries of `aspect_scores`, `metadata_score`,
`metadata_components` and `explanation`. -/
structure SimilarityResult where
  overall_score : ℝ
  career : ℝ
  achievement : ℝ
  biographical : ℝ
  influence : ℝ
  combined : ℝ
  metadata_score : ℝ
  metadata_components : MetadataComponents
  explanation : String

/-- Source: `calculate_improved_narrative_similarity`. -/
def calculate_improved_narrative_similarity (person1_data person2_data : EnrichedData) :
    SimilarityResult :=
  let embeddings1 := person1_data.embeddings
  let embeddings2 := person2_data.embeddings
  let career_sim := cosine_similarity embeddings1.career_embedding embeddings2.career_embedding
  let achievement_sim :=
    cosine_similarity embeddings1.achievement_embedding embeddings2.achievement_embedding
  let bio_sim :=
    cosine_similarity embeddings1.biographical_embedding embeddings2.biographical_embedding
  let influence_sim :=
    cosine_similarity embeddings1.influence_embedding embeddings2.influence_embedding
  let combined_sim :=
    cosine_similarity embeddings1.combined_embedding embeddings2.combined_embedding
  let md := calculate_metadata_similarity person1_data.metadata person2_data.metadata
  let metadata_sim := md.1
  let metadata_components := md.2
  let overall_score :=
    w_career * career_sim + w_achievement * achievement_sim +
      w_biographical * bio_sim + w_influence * influence_sim +
      w_combined * combined_sim + w_metadata * metadata_sim
  let explanation_parts : List String :=
    (if metadata_components.domain_match = 1.0 then ["Same professional domain"] else []) ++
    (if metadata_components.era_match ≥ 0.5 then ["Same generation/era"] else []) ++
    (if career_sim > 0.7 then ["Very similar career trajectory"] else []) ++
    (if achievement_sim > 0.6 then ["Similar level of recognition"] else []) ++
    (if metadata_components.tag_similarity > 0.5 then ["Shared thematic elements"] else [])
  let explanation :=
    if explanation_parts.isEmpty then "Limited narrative overlap"
    else String.intercalate "; " explanation_parts
  ⟨overall_score, career_sim, achievement_sim, bio_sim, influence_sim, combined_sim,
    metadata_sim, metadata_components, explanation⟩

/-- Tier selection (the `base` if-chain) of
`get_improved_narrative_explanation`, on the overall score. -/
def improvedTier (score : ℝ) : String :=
  if score ≥ 0.85 then "Extremely high narrative similarity"
  else if score ≥ 0.75 then "Very high narrative similarity"
  else if score ≥ 0.65 then "High narrative similarity"
  else if score ≥ 0.50 then "Moderate narrative similarity"
  else if score ≥ 0.35 then "Low narrative similarity"
  else if score ≥ 0.20 then "Very low narrative similarity"
  else "Minimal narrative similarity"

/-- Source: `get_improved_narrative_explanation`. -/
def get_improved_narrative_explanation (similarity_result : SimilarityResult) : String :=
  let base := improvedTier similarity_result.overall_score
  let specific := similarity_result.explanation
  if specific ≠ "" then base ++ " - " ++ specific else base

/-- Source: `calculate_simple_narrative_similarity` (plain cosine fallback). -/
def calculate_simple_narrative_similarity (vec1 vec2 : List ℝ) : ℝ :=
  cosine_similarity vec1 vec2

end ImprovedSim

namespace Backend

/-- Weight of the narrative component (`W_NARRATIVE`, main.py line 32). -/
def W_NARRATIVE : ℝ := 0.5

/-- Weight of the factual component (`W_FACTUAL`). -/
def W_FACTUAL : ℝ := 0.3

/-- Weight of the relational component (`W_RELATIONAL`). -/
def W_RELATIONAL : ℝ := 0.2

/-- Source: `main.jaccard_similarity`: intersection size over union size,
`0` when the union is empty. -/
def jaccard_similarity (set1 set2 : Finset String) : ℝ :=
  if (set1 ∪ set2).card ≠ 0 then
    ((set1 ∩ set2).card : ℝ) / ((set1 ∪ set2).card : ℝ)
  else 0

/-- Source: `main.cosine_similarity` (same degenerate-case contract as the
improved module's copy). -/
def cosine_similarity (vec1 vec2 : List ℝ) : ℝ :=
  if vec1.length ≠ vec2.length ∨ Np.linalg_norm vec1 = 0 ∨ Np.linalg_norm vec2 = 0 then
    0.0
  else
    Np.dot vec1 vec2 / (Np.linalg_norm vec1 * Np.linalg_norm vec2)

/-- Source: `get_narrative_explanation` (main.py lines 52-67). -/
def get_narrative_explanation (similarity : ℝ) : String :=
  if similarity ≥ 0.9 then
    "Extremely high similarity - narratives are nearly identical in themes and context"
  else if similarity ≥ 0.8 then
    "Very high similarity - narratives share strong thematic and contextual similarities"
  else if similarity ≥ 0.7 then
    "High similarity - narratives have significant thematic overlap and similar contexts"
  else if similarity ≥ 0.6 then
    "Moderate similarity - narratives share some common themes and contexts"
  else if similarity ≥ 0.5 then
    "Low similarity - narratives have limited thematic overlap"
  else if similarity ≥ 0.3 then
    "Very low similarity - narratives share few common elements"
  else
    "Minimal similarity - narratives are largely unrelated"

/-- One entry of `PERSON_CACHE`: the fields consumed by the ranking engine.
The cache also carries `direct_relationships` and `shared_contexts`, which
only the match-detail endpoint reads; they play no part in scoring and are
omitted here. -/
structure Person where
  qid : String
  label : String
  factual_qids : Finset String
  relational_qids : Finset String
  narrative_vector : List ℝ

/-- One element of the `all_scores` list built by
`calculate_ranking_for_secret` (before ranks are assigned). -/
structure ScoreItem where
  qid : String
  label : String
  score : ℝ
  sim_narrative : ℝ
  sim_factual : ℝ
  sim_relational : ℝ

/-- One element of the returned ranking (a `ScoreItem` plus its 1-based
`rank`). -/
structure RankItem where
  qid : String
  label : String
  rank : ℕ
  score : ℝ
  sim_narrative : ℝ
  sim_factual : ℝ
  sim_relational : ℝ

/-- One entry of `GAME_SESSIONS`. -/
structure Session where
  secret_qid : String
  guesses : List RankItem
  is_game_won : Bool
  is_resigned : Bool
  ranking_calculated : Bool

/-- The error kinds the endpoints raise (`HTTPException` status codes):
404 `notFound`, 503 `notReady` (data not loaded), 400 `gameFinished`,
500 `internal`. -/
inductive ApiError where
  | notFound
  | notReady
  | gameFinished
  | internal
deriving DecidableEq, Repr

/-- In-memory server state: `PERSON_CACHE`, `IMPROVED_EMBEDDINGS_CACHE` and
`GAME_SESSIONS`, each an insertion-ordered dictionary. -/
structure ServerState where
  personCache : List (String × Person)
  improvedCache : List (String × ImprovedSim.EnrichedData)
  sessions : List (String × Session)

/-- Narrative vector of a cached person (`PERSON_CACHE[qid].get('narrative_vector', [])`).
The fallback branch of `calculate_narrative_similarity` only runs this for
qids already in the cache; a missing qid yields the default empty vector. -/
def vecOf (st : ServerState) (qid : String) : List ℝ :=
  match st.personCache.lookup qid with
  | some p => p.narrative_vector
  | none => []

/-- Source: `calculate_narrative_similarity`.  The improved multi-aspect
path runs when both qids are in the improved-embeddings cache (the
`improved_similarity` module ships with the backend, so
`IMPROVED_SIMILARITY_AVAILABLE` is true); otherwise plain cosine of the two
narrative vectors. -/
def calculate_narrative_similarity (st : ServerState) (person_qid secret_qid : String) : ℝ :=
  match st.improvedCache.lookup person_qid, st.improvedCache.lookup secret_qid with
  | some d1, some d2 =>
      (ImprovedSim.calculate_improved_narrative_similarity d1 d2).overall_score
  | _, _ =>
      cosine_similarity (vecOf st person_qid) (vecOf st secret_qid)

/-- Loop body of `calculate_ranking_for_secret`: score one cached person
against the secret person. -/
def score_item (st : ServerState) (secret_person : Person) (secret_qid : String)
    (qid : String) (person_data : Person) : ScoreItem :=
  let sim_n := calculate_narrative_similarity st qid secret_qid
  let sim_f := jaccard_similarity person_data.factual_qids secret_person.factual_qids
  let sim_r := jaccard_similarity person_data.relational_qids secret_person.relational_qids
  ⟨qid, person_data.label,
    W_NARRATIVE * sim_n + W_FACTUAL * sim_f + W_RELATIONAL * sim_r,
    sim_n, sim_f, sim_r⟩

/-- Comparison used by `sorted(all_scores, key=lambda x: x['score'], reverse=True)`:
`a` may come before `b` exactly when `a`'s score is at least `b`'s. -/
def descScore (a b : ScoreItem) : Prop := b.score ≤ a.score

instance : DecidableRel descScore := fun a b => Real.decidableLE b.score a.score

instance : IsTotal ScoreItem descScore := ⟨fun a b => le_total b.score a.score⟩

instance : IsTrans ScoreItem descScore := ⟨fun _ _ _ h1 h2 => le_trans h2 h1⟩

/-- Rank assignment by `enumerate`: element at position `i` of the sorted
list receives rank `i + 1`. -/
def addRanks : ℕ → List ScoreItem → List RankItem
  | _, [] => []
  | i, item :: rest =>
      ⟨item.qid, item.label, i + 1, item.score,
        item.sim_narrative, item.sim_factual, item.sim_relational⟩ :: addRanks (i + 1) rest

/-- Source: `calculate_ranking_for_secret`.  Raises 404 (`notFound`) when
the secret qid is not cached; otherwise scores every cached person against
the secret, sorts by descending score (Python's `sorted` with
`reverse=True` — a stable descending sort, here `List.insertionSort` on
`descScore`, which computes exactly that) and assigns positional ranks. -/
def calculate_ranking_for_secret (st : ServerState) (secret_qid : String) :
    Except ApiError (List RankItem) :=
  match st.personCache.lookup secret_qid with
  | none => .error .notFound
  | some secret_person =>
      let all_scores :=
        st.personCache.map fun qp => score_item st secret_person secret_qid qp.1 qp.2
      let sorted_ranking := List.insertionSort descScore all_scores
      .ok (addRanks 0 sorted_ranking)

/-- Source: endpoint `get_daily_ranking`.  Checks only membership of the
requested qid (there is no emptiness check on `PERSON_CACHE` in this
endpoint), then delegates. -/
def get_daily_ranking (st : ServerState) (secret_qid : String) :
    Except ApiError (List RankItem) :=
  match st.personCache.lookup secret_qid with
  | none => .error .notFound
  | some _ => calculate_ranking_for_secret st secret_qid

/-- Response dictionary of `make_guess`. -/
structure MakeGuessResponse where
  isCorrect : Bool
  result : RankItem
  gameWon : Bool

/-- Replace the value stored under a key (in-place mutation of a dict
entry; insertion order is preserved). -/
def updateSessions : List (String × Session) → String → Session → List (String × Session)
  | [], _, _ => []
  | (k, v) :: rest, sessionId, s =>
      if k == sessionId then (k, s) :: rest
      else (k, v) :: updateSessions rest sessionId s

/-- Source: endpoint `make_guess`.  Checks run in source order — empty
cache (503), unknown session (404), finished game (400), unknown guessed
person (404), ranking failure (propagated), missing ranking entry (404) —
and only then is the session mutated (win flag, guess log).  The state
component of the result is the whole-server state after the call. -/
def make_guess (st : ServerState) (sessionId guessed_qid : String) :
    Except ApiError MakeGuessResponse × ServerState :=
  if st.personCache.isEmpty then (.error .notReady, st)
  else
    match st.sessions.lookup sessionId with
    | none => (.error .notFound, st)
    | some session =>
      if session.is_game_won || session.is_resigned then (.error .gameFinished, st)
      else
        let secret_qid := session.secret_qid
        if (st.personCache.lookup guessed_qid).isNone then (.error .notFound, st)
        else
          match calculate_ranking_for_secret st secret_qid with
          | .error e => (.error e, st)
          | .ok ranking =>
            match ranking.find? (fun item => item.qid == guessed_qid) with
            | none => (.error .notFound, st)
            | some guessed_result =>
              let is_correct : Bool := guessed_qid == secret_qid
              let session' : Session :=
                { session with
                    is_game_won := if is_correct then true else session.is_game_won,
                    guesses := session.guesses ++ [guessed_result] }
              (.ok ⟨is_correct, guessed_result, is_correct⟩,
                { st with sessions := updateSessions st.sessions sessionId session' })

/-- Forget the rank of a ranking entry, recovering the underlying score
record. -/
def stripRank (e : RankItem) : ScoreItem :=
  ⟨e.qid, e.label, e.score, e.sim_narrative, e.sim_factual, e.sim_relational⟩

end Backend

section ConcreteStates

open Backend ImprovedSim

/-- Server state before any data is loaded: all three caches empty. -/
def stEmpty : ServerState := ⟨[], [], []⟩

/-- Person `A` of the spec scenario: narrative `[1,0]`, factual
`{occ:singer}`, no relational attributes. -/
def personA : Person := ⟨"A", "A", {"occ:singer"}, ∅, [1, 0]⟩

/-- Person `B` of the spec scenario: narrative `[0,1]`, factual
`{occ:singer}`, no relational attributes. -/
def personB : Person := ⟨"B", "B", {"occ:singer"}, ∅, [0, 1]⟩

/-- Population of the spec scenario (no enriched embeddings, no sessions). -/
def stAB : ServerState := ⟨[("A", personA), ("B", personB)], [], []⟩

/-- Ranking of the spec scenario with secret `A`: the target self-scores
`0.8` and `B` scores `0.3 = 0.5 * 0 + 0.3 * 1 + 0.2 * 0`. -/
def rankedAB : List RankItem :=
  [⟨"A", "A", 1, 0.8, 1.0, 1.0, 0.0⟩, ⟨"B", "B", 2, 0.3, 0.0, 1.0, 0.0⟩]

/-- A person with entirely empty attributes. -/
def personE (q : String) : Person := ⟨q, q, ∅, ∅, []⟩

/-- Two attribute-less persons with `B` ahead of `A` in iteration order. -/
def stBA : ServerState := ⟨[("B", personE "B"), ("A", personE "A")], [], []⟩

/-- Ranking produced by `stBA` with secret `A`: every pairwise score is `0`,
the stable sort keeps iteration order, and the target lands at rank 2. -/
def rankedBA : List RankItem :=
  [⟨"B", "B", 1, 0, 0, 0, 0⟩, ⟨"A", "A", 2, 0, 0, 0, 0⟩]

/-- A single-person population (the attribute-less person `A`). -/
def stA1 : ServerState := ⟨[("A", personE "A")], [], []⟩

/-- Metadata record with `achievement_score = 0` and a nonempty tag set. -/
def mdZero : Metadata := ⟨none, .unknown, 0, {"t"}⟩

/-- Metadata record with `achievement_score = 1` and a nonempty tag set. -/
def mdOne : Metadata := ⟨none, .unknown, 1, {"t"}⟩

end ConcreteStates

/-! ## Helper lemmas -/

namespace Np

theorem dot_nonneg_self (v : List ℝ) : 0 ≤ dot v v := by
  induction v with
  | nil => simp [dot]
  | cons x xs ih =>
      have hx : 0 ≤ x * x := mul_self_nonneg x
      simpa [dot] using add_nonneg hx ih

theorem linalg_norm_eq_zero_iff (v : List ℝ) :
    linalg_norm v = 0 ↔ dot v v = 0 := by
  unfold linalg_norm
  exact Real.sqrt_eq_zero (dot_nonneg_self v)

end Np

namespace Backend

theorem lookup_append_cons {α : Type} (pre post : List (String × α)) (k : String) (v : α)
    (h : k ∉ pre.map Prod.fst) :
    List.lookup k (pre ++ (k, v) :: post) = some v := by
  induction pre with
  | nil => simp [List.lookup]
  | cons p rest ih =>
      have hk : k ≠ p.1 := by
        intro he
        exact h (by simp [he])
      have hrest : k ∉ rest.map Prod.fst := fun hm => h (by simp [hm])
      simpa [List.lookup, beq_eq_false_iff_ne.mpr hk] using ih hrest

theorem filter_orderedInsert_score (c : ℝ) (x : ScoreItem) :
    ∀ l : List ScoreItem,
      (List.orderedInsert descScore x l).filter (fun y => y.score = c) =
        if x.score = c then x :: l.filter (fun y => y.score = c)
        else l.filter (fun y => y.score = c)
  | [] => by
      rcases eq_or_ne x.score c with h | h <;>
        simp [List.orderedInsert, List.filter_cons, h]
  | y :: ys => by
      by_cases hxy : descScore x y
      · rcases eq_or_ne x.score c with h | h <;>
          simp [List.orderedInsert, hxy, List.filter_cons, h]
      · have hlt : x.score < y.score := lt_of_not_le hxy
        rcases eq_or_ne x.score c with h | h
        · have hy : y.score ≠ c := by
            intro hyc
            exact absurd (h ▸ hyc) (ne_of_gt hlt)
          simp [List.orderedInsert, hxy, List.filter_cons, hy,
            filter_orderedInsert_score c x ys, h]
        · simp only [List.orderedInsert, if_neg hxy, List.filter_cons,
            filter_orderedInsert_score c x ys, if_neg h]

theorem filter_insertionSort_score (c : ℝ) :
    ∀ l : List ScoreItem,
      (List.insertionSort descScore l).filter (fun y => y.score = c) =
        l.filter (fun y => y.score = c)
  | [] => rfl
  | x :: xs => by
      rcases eq_or_ne x.score c with h | h <;>
        simp [List.insertionSort, filter_orderedInsert_score,
          filter_insertionSort_score c xs, List.filter_cons, h]

theorem orderedInsert_head_of_lt (e : ScoreItem) :
    ∀ l : List ScoreItem, (∀ y ∈ l, y.score < e.score) →
      List.orderedInsert descScore e l = e :: l
  | [], _ => rfl
  | y :: ys, h => by
      have : descScore e y := le_of_lt (h y (by simp))
      simp [List.orderedInsert, this]

theorem insertionSort_strict_max (e : ScoreItem) :
    ∀ (a b : List ScoreItem), (∀ y ∈ a ++ b, y.score < e.score) →
      ∃ t, List.insertionSort descScore (a ++ e :: b) = e :: t
  | [], b, h => by
      refine ⟨List.insertionSort descScore b, ?_⟩
      have hmem : ∀ y ∈ List.insertionSort descScore b, y.score < e.score := by
        intro y hy
        exact h y (by simpa using (List.mem_insertionSort descScore).mp hy)
      simpa [List.insertionSort] using orderedInsert_head_of_lt e _ hmem
  | x :: a', b, h => by
      obtain ⟨t, ht⟩ := insertionSort_strict_max e a' b
        (fun y hy => h y (by simp at hy ⊢; tauto))
      have hx : x.score < e.score := h x (by simp)
      have hnot : ¬ descScore x e := not_le.mpr hx
      refine ⟨List.orderedInsert descScore x t, ?_⟩
      simp [List.insertionSort, ht, List.orderedInsert, hnot]

theorem addRanks_map_stripRank : ∀ (n : ℕ) (l : List ScoreItem),
    (addRanks n l).map stripRank = l
  | _, [] => rfl
  | n, x :: xs => by
      simp [addRanks, stripRank, addRanks_map_stripRank (n + 1) xs]

theorem mem_addRanks {e : RankItem} {n : ℕ} {l : List ScoreItem}
    (h : e ∈ addRanks n l) : stripRank e ∈ l := by
  have := List.mem_map_of_mem stripRank h
  rwa [addRanks_map_stripRank] at this

theorem addRanks_get_rank : ∀ (l : List ScoreItem) (n i : ℕ)
    (h : i < (addRanks n l).length), ((addRanks n l).get ⟨i, h⟩).rank = n + i + 1
  | [], _, i, h => by simp [addRanks] at h
  | x :: xs, n, 0, _ => rfl
  | x :: xs, n, i + 1, h => by
      have hlen : i < (addRanks (n + 1) xs).length := by
        simpa [addRanks] using h
      have := addRanks_get_rank xs (n + 1) i hlen
      simpa [addRanks, List.get, Nat.add_assoc, Nat.add_comm, Nat.add_left_comm] using this

theorem score_formula_of_mem_entries (st : ServerState) (sp : Person)
    (secret_qid : String) (x : ScoreItem)
    (h : x ∈ st.personCache.map fun qp => score_item st sp secret_qid qp.1 qp.2) :
    x.score = W_NARRATIVE * x.sim_narrative + W_FACTUAL * x.sim_factual +
      W_RELATIONAL * x.sim_relational := by
  obtain ⟨qp, _, rfl⟩ := List.mem_map.mp h
  rfl

theorem filter_map_qid_addRanks (c : ℝ) : ∀ (n : ℕ) (l : List ScoreItem),
    ((addRanks n l).filter fun e => e.score = c).map RankItem.qid =
      (l.filter fun x => x.score = c).map ScoreItem.qid
  | _, [] => rfl
  | n, x :: xs => by
      rcases eq_or_ne x.score c with h | h <;>
        simp [addRanks, List.filter_cons, h, filter_map_qid_addRanks c (n + 1) xs]

end Backend

/-! ## Claim theorems -/

/-- C6: the era-match component of metadata similarity is 1.0 for identical
era buckets, 0.5 when the two buckets are at index distance exactly 1 in
the fixed ordering `era_order`, and 0.0 otherwise, with `unknown`
participating in the distance computation like any other member; in
particular `eraMatch gen_x millennial = 0.5`, `eraMatch gen_x gen_x = 1.0`
and `eraMatch boomer gen_z = 0.0`. -/
theorem C6_era_match (e1 e2 : ImprovedSim.EraCategory) :
    (e1 = e2 → ImprovedSim.eraMatch e1 e2 = 1.0) ∧
    (((ImprovedSim.eraIndex e1 : ℤ) - (ImprovedSim.eraIndex e2 : ℤ)).natAbs = 1 →
      ImprovedSim.eraMatch e1 e2 = 0.5) ∧
    (e1 ≠ e2 →
      ((ImprovedSim.eraIndex e1 : ℤ) - (ImprovedSim.eraIndex e2 : ℤ)).natAbs ≠ 1 →
      ImprovedSim.eraMatch e1 e2 = 0.0) ∧
    ImprovedSim.eraMatch .gen_x .millennial = 0.5 ∧
    ImprovedSim.eraMatch .gen_x .gen_x = 1.0 ∧
    ImprovedSim.eraMatch .boomer .gen_z = 0.0 ∧
    ImprovedSim.eraMatch .gen_z .unknown = 0.5 := by
  refine ⟨?_, ?_, ?_, ?_, ?_, ?_, ?_⟩
  · intro h
    subst h
    simp [ImprovedSim.eraMatch, sub_self]
  · intro h
    simp [ImprovedSim.eraMatch, h]
  · intro h1 h2
    simp [ImprovedSim.eraMatch, h1, h2]
  · norm_num [ImprovedSim.eraMatch,
      show ImprovedSim.eraIndex .gen_x = 2 by decide,
      show ImprovedSim.eraIndex .millennial = 3 by decide]
  · simp [ImprovedSim.eraMatch, sub_self]
  · norm_num [ImprovedSim.eraMatch,
      show ImprovedSim.eraIndex .boomer = 1 by decide,
      show ImprovedSim.eraIndex .gen_z = 5 by decide,
      show ImprovedSim.EraCategory.boomer ≠ .gen_z from by decide]
  · norm_num [ImprovedSim.eraMatch,
      show ImprovedSim.eraIndex .gen_z = 5 by decide,
      show ImprovedSim.eraIndex .unknown = 6 by decide]

/-- Witness for C6 at concrete era buckets. -/
theorem C6_era_match_witness :
    ImprovedSim.eraMatch .gen_x .gen_x = 1.0 ∧
    ImprovedSim.eraMatch .gen_x .millennial = 0.5 ∧
    ImprovedSim.eraMatch .boomer .gen_z = 0.0 :=
  ⟨(C6_era_match .gen_x .gen_x).1 rfl,
   (C6_era_match .gen_x .millennial).2.1 (by decide),
   (C6_era_match .boomer .gen_z).2.2.1 (by decide) (by decide)⟩

/-- C8: for every pair of input vectors, cosine similarity (both the
backend's and the improved module's copy) returns exactly 0.0 whenever
either vector has zero magnitude or the two vectors have different
lengths; otherwise it returns the dot product divided by the product of
the norms, and that denominator is nonzero, so no division by zero reaches
the caller. -/
theorem C8_cosine_degenerate (vec1 vec2 : List ℝ) :
    ((vec1.length ≠ vec2.length ∨ Np.linalg_norm vec1 = 0 ∨ Np.linalg_norm vec2 = 0) →
      Backend.cosine_similarity vec1 vec2 = 0 ∧
      ImprovedSim.cosine_similarity vec1 vec2 = 0) ∧
    (vec1.length = vec2.length → Np.linalg_norm vec1 ≠ 0 → Np.linalg_norm vec2 ≠ 0 →
      Backend.cosine_similarity vec1 vec2 =
        Np.dot vec1 vec2 / (Np.linalg_norm vec1 * Np.linalg_norm vec2) ∧
      ImprovedSim.cosine_similarity vec1 vec2 =
        Np.dot vec1 vec2 / (Np.linalg_norm vec1 * Np.linalg_norm vec2) ∧
      Np.linalg_norm vec1 * Np.linalg_norm vec2 ≠ 0) := by
  constructor
  · intro h
    constructor
    · unfold Backend.cosine_similarity
      rw [if_pos h]
      norm_num
    · unfold ImprovedSim.cosine_similarity
      rw [if_pos h]
      norm_num
  · intro h1 h2 h3
    have hcond : ¬ (vec1.length ≠ vec2.length ∨ Np.linalg_norm vec1 = 0 ∨
        Np.linalg_norm vec2 = 0) := by
      push_neg
      exact ⟨h1, h2, h3⟩
    refine ⟨?_, ?_, mul_ne_zero h2 h3⟩
    · unfold Backend.cosine_similarity
      rw [if_neg hcond]
    · unfold ImprovedSim.cosine_similarity
      rw [if_neg hcond]

/-- Witness for C8 on a concrete mismatched-length pair. -/
theorem C8_cosine_degenerate_witness :
    Backend.cosine_similarity [1, 0] [0, 1, 2] = 0 ∧
    ImprovedSim.cosine_similarity [1, 0] [0, 1, 2] = 0 :=
  (C8_cosine_degenerate [1, 0] [0, 1, 2]).1 (Or.inl (by norm_num))


/-- C9: the explanation generator maps a narrative similarity score to one
of seven fixed tiers with inclusive lower bounds 0.9, 0.8, 0.7, 0.6, 0.5,
0.3, else minimal; the multi-aspect variant uses inclusive lower bounds
0.85, 0.75, 0.65, 0.50, 0.35, 0.20; a score exactly at a threshold falls
in the higher tier (`explain 0.90` is the extremely-high tier,
`explain 0.8999` the very-high tier). -/
theorem C9_explanation_tiers (s : ℝ) :
    (s ≥ 0.9 → Backend.get_narrative_explanation s =
      "Extremely high similarity - narratives are nearly identical in themes and context") ∧
    (0.8 ≤ s → s < 0.9 → Backend.get_narrative_explanation s =
      "Very high similarity - narratives share strong thematic and contextual similarities") ∧
    (0.7 ≤ s → s < 0.8 → Backend.get_narrative_explanation s =
      "High similarity - narratives have significant thematic overlap and similar contexts") ∧
    (0.6 ≤ s → s < 0.7 → Backend.get_narrative_explanation s =
      "Moderate similarity - narratives share some common themes and contexts") ∧
    (0.5 ≤ s → s < 0.6 → Backend.get_narrative_explanation s =
      "Low similarity - narratives have limited thematic overlap") ∧
    (0.3 ≤ s → s < 0.5 → Backend.get_narrative_explanation s =
      "Very low similarity - narratives share few common elements") ∧
    (s < 0.3 → Backend.get_narrative_explanation s =
      "Minimal similarity - narratives are largely unrelated") ∧
    (s ≥ 0.85 → ImprovedSim.improvedTier s = "Extremely high narrative similarity") ∧
    (0.75 ≤ s → s < 0.85 → ImprovedSim.improvedTier s = "Very high narrative similarity") ∧
    (0.65 ≤ s → s < 0.75 → ImprovedSim.improvedTier s = "High narrative similarity") ∧
    (0.50 ≤ s → s < 0.65 → ImprovedSim.improvedTier s = "Moderate narrative similarity") ∧
    (0.35 ≤ s → s < 0.50 → ImprovedSim.improvedTier s = "Low narrative similarity") ∧
    (0.20 ≤ s → s < 0.35 → ImprovedSim.improvedTier s = "Very low narrative similarity") ∧
    (s < 0.20 → ImprovedSim.improvedTier s = "Minimal narrative similarity") ∧
    Backend.get_narrative_explanation 0.90 =
      "Extremely high similarity - narratives are nearly identical in themes and context" ∧
    Backend.get_narrative_explanation 0.8999 =
      "Very high similarity - narratives share strong thematic and contextual similarities" := by
  refine ⟨?_, ?_, ?_, ?_, ?_, ?_, ?_, ?_, ?_, ?_, ?_, ?_, ?_, ?_, ?_, ?_⟩
  · intro h1
    unfold Backend.get_narrative_explanation
    rw [if_pos h1]
  · intro h1 h2
    unfold Backend.get_narrative_explanation
    rw [if_neg (not_le.mpr h2), if_pos h1]
  · intro h1 h2
    unfold Backend.get_narrative_explanation
    rw [if_neg (not_le.mpr (by linarith : s < 0.9)),
      if_neg (not_le.mpr h2), if_pos h1]
  · intro h1 h2
    unfold Backend.get_narrative_explanation
    rw [if_neg (not_le.mpr (by linarith : s < 0.9)),
      if_neg (not_le.mpr (by linarith : s < 0.8)),
      if_neg (not_le.mpr h2), if_pos h1]
  · intro h1 h2
    unfold Backend.get_narrative_explanation
    rw [if_neg (not_le.mpr (by linarith : s < 0.9)),
      if_neg (not_le.mpr (by linarith : s < 0.8)),
      if_neg (not_le.mpr (by linarith : s < 0.7)),
      if_neg (not_le.mpr h2), if_pos h1]
  · intro h1 h2
    unfold Backend.get_narrative_explanation
    rw [if_neg (not_le.mpr (by linarith : s < 0.9)),
      if_neg (not_le.mpr (by linarith : s < 0.8)),
      if_neg (not_le.mpr (by linarith : s < 0.7)),
      if_neg (not_le.mpr (by linarith : s < 0.6)),
      if_neg (not_le.mpr h2), if_pos h1]
  · intro h1
    unfold Backend.get_narrative_explanation
    rw [if_neg (not_le.mpr (by linarith : s < 0.9)),
      if_neg (not_le.mpr (by linarith : s < 0.8)),
      if_neg (not_le.mpr (by linarith : s < 0.7)),
      if_neg (not_le.mpr (by linarith : s < 0.6)),
      if_neg (not_le.mpr (by linarith : s < 0.5)),
      if_neg (not_le.mpr h1)]
  · intro h1
    unfold ImprovedSim.improvedTier
    rw [if_pos h1]
  · intro h1 h2
    unfold ImprovedSim.improvedTier
    rw [if_neg (not_le.mpr h2), if_pos h1]
  · intro h1 h2
    unfold ImprovedSim.improvedTier
    rw [if_neg (not_le.mpr (by linarith : s < 0.85)),
      if_neg (not_le.mpr h2), if_pos h1]
  · intro h1 h2
    unfold ImprovedSim.improvedTier
    rw [if_neg (not_le.mpr (by linarith : s < 0.85)),
      if_neg (not_le.mpr (by linarith : s < 0.75)),
      if_neg (not_le.mpr h2), if_pos h1]
  · intro h1 h2
    unfold ImprovedSim.improvedTier
    rw [if_neg (not_le.mpr (by linarith : s < 0.85)),
      if_neg (not_le.mpr (by linarith : s < 0.75)),
      if_neg (not_le.mpr (by linarith : s < 0.65)),
      if_neg (not_le.mpr h2), if_pos h1]
  · intro h1 h2
    unfold ImprovedSim.improvedTier
    rw [if_neg (not_le.mpr (by linarith : s < 0.85)),
      if_neg (not_le.mpr (by linarith : s < 0.75)),
      if_neg (not_le.mpr (by linarith : s < 0.65)),
      if_neg (not_le.mpr (by linarith : s < 0.50)),
      if_neg (not_le.mpr h2), if_pos h1]
  · intro h1
    unfold ImprovedSim.improvedTier
    rw [if_neg (not_le.mpr (by linarith : s < 0.85)),
      if_neg (not_le.mpr (by linarith : s < 0.75)),
      if_neg (not_le.mpr (by linarith : s < 0.65)),
      if_neg (not_le.mpr (by linarith : s < 0.50)),
      if_neg (not_le.mpr (by linarith : s < 0.35)),
      if_neg (not_le.mpr h1)]
  · unfold Backend.get_narrative_explanation
    rw [if_pos (by norm_num : (0.90 : ℝ) ≥ 0.9)]
  · unfold Backend.get_narrative_explanation
    rw [if_neg (by norm_num : ¬ (0.8999 : ℝ) ≥ 0.9),
      if_pos (by norm_num : (0.8999 : ℝ) ≥ 0.8)]

/-- Witness for C9 at a concrete score. -/
theorem C9_explanation_tiers_witness :
    Backend.get_narrative_explanation 0.95 =
      "Extremely high similarity - narratives are nearly identical in themes and context" ∧
    ImprovedSim.improvedTier 0.95 = "Extremely high narrative similarity" :=
  ⟨(C9_explanation_tiers 0.95).1 (by norm_num),
   (C9_explanation_tiers 0.95).2.2.2.2.2.2.2.1 (by norm_num)⟩

/-- Counterexample to C5: a metadata record with nonempty tags but
`achievement_score = 0` self-scores `0.3 + 0.2 + 0 + 0.3 = 0.8`, not 1.0
(the achievement component is `min/max` with a `1.0` denominator floor, so
it is `0/1 = 0` rather than maxed out). -/
theorem C5_counterexample :
    mdZero.thematic_tags ≠ ∅ ∧
    (ImprovedSim.calculate_metadata_similarity mdZero mdZero).1 ≠ 1 := by
  constructor
  · decide
  · norm_num [ImprovedSim.calculate_metadata_similarity, mdZero,
      ImprovedSim.eraMatch, sub_self, ImprovedSim.jaccard_similarity,
      Finset.union_self, Finset.inter_self,
      ImprovedSim.mw_domain, ImprovedSim.mw_era, ImprovedSim.mw_achievement,
      ImprovedSim.mw_tags]

/-- C5 (amended): the four metadata component weights (0.30 domain,
0.20 era, 0.20 achievement, 0.30 tags) sum to exactly 1.0, and the
metadata similarity of a record `m` with itself equals exactly 1.0 (all
four components max out) for any `m` with nonempty `thematic_tags` AND
`achievement_score ≥ 1`; the achievement component of the self-comparison
is `a / max a 1`, which stays below 1 when `a < 1`. -/
theorem C5_metadata_self (m : ImprovedSim.Metadata) :
    (ImprovedSim.mw_domain + ImprovedSim.mw_era + ImprovedSim.mw_achievement +
      ImprovedSim.mw_tags = 1) ∧
    (m.thematic_tags ≠ ∅ → 1 ≤ m.achievement_score →
      (ImprovedSim.calculate_metadata_similarity m m).1 = 1 ∧
      (ImprovedSim.calculate_metadata_similarity m m).2 = ⟨1, 1, 1, 1⟩) := by
  constructor
  · norm_num [ImprovedSim.mw_domain, ImprovedSim.mw_era,
      ImprovedSim.mw_achievement, ImprovedSim.mw_tags]
  · intro htags hach
    have hera : ImprovedSim.eraMatch m.era_category m.era_category = 1.0 := by
      simp [ImprovedSim.eraMatch, sub_self]
    have hachval :
        min m.achievement_score m.achievement_score /
          max (max m.achievement_score m.achievement_score) 1.0 = 1 := by
      have h10 : m.achievement_score ⊔ (1.0 : ℝ) = m.achievement_score :=
        max_eq_left (le_trans (by norm_num) hach)
      rw [min_self, max_self, h10]
      exact div_self (by linarith)
    have hcard : 0 < (m.thematic_tags ∪ m.thematic_tags).card := by
      rw [Finset.union_self]
      exact Finset.card_pos.mpr (Finset.nonempty_iff_ne_empty.mpr htags)
    have htagval :
        ImprovedSim.jaccard_similarity m.thematic_tags m.thematic_tags = 1 := by
      unfold ImprovedSim.jaccard_similarity
      rw [if_neg (by tauto : ¬ (m.thematic_tags = ∅ ∧ m.thematic_tags = ∅)),
        if_pos hcard, Finset.inter_self, Finset.union_self]
      exact div_self (Nat.cast_ne_zero.mpr
        (Finset.card_pos.mpr (Finset.nonempty_iff_ne_empty.mpr htags)).ne')
    unfold ImprovedSim.calculate_metadata_similarity
    rw [if_pos rfl]
    constructor
    · simp only [hera, hachval, htagval]
      norm_num [ImprovedSim.mw_domain, ImprovedSim.mw_era,
        ImprovedSim.mw_achievement, ImprovedSim.mw_tags]
    · simp only [hera, hachval, htagval]
      norm_num

/-- Witness for C5 (amended) at a concrete metadata record. -/
theorem C5_metadata_self_witness :
    (ImprovedSim.calculate_metadata_similarity mdOne mdOne).1 = 1 ∧
    (ImprovedSim.calculate_metadata_similarity mdOne mdOne).2 = ⟨1, 1, 1, 1⟩ :=
  (C5_metadata_self mdOne).2 (by decide) (by norm_num [mdOne])

/-- C7: narrative similarity picks a path per pairwise comparison: when
enriched data is cached for both persons it is the weighted combination
career 0.20, achievement 0.15, biographical 0.20, influence 0.10,
combined 0.20, metadata 0.15 (weights summing to 1.0) of the five aspect
cosine similarities and the metadata sub-score; when enriched data is
missing for either person it is the single cosine similarity of the two
plain narrative vectors. -/
theorem C7_narrative_paths :
    (ImprovedSim.w_career + ImprovedSim.w_achievement + ImprovedSim.w_biographical +
      ImprovedSim.w_influence + ImprovedSim.w_combined + ImprovedSim.w_metadata = 1) ∧
    ∀ (st : Backend.ServerState) (p s : String) (d1 d2 : ImprovedSim.EnrichedData),
      (st.improvedCache.lookup p = some d1 → st.improvedCache.lookup s = some d2 →
        Backend.calculate_narrative_similarity st p s =
          ImprovedSim.w_career * ImprovedSim.cosine_similarity
              d1.embeddings.career_embedding d2.embeddings.career_embedding +
          ImprovedSim.w_achievement * ImprovedSim.cosine_similarity
              d1.embeddings.achievement_embedding d2.embeddings.achievement_embedding +
          ImprovedSim.w_biographical * ImprovedSim.cosine_similarity
              d1.embeddings.biographical_embedding d2.embeddings.biographical_embedding +
          ImprovedSim.w_influence * ImprovedSim.cosine_similarity
              d1.embeddings.influence_embedding d2.embeddings.influence_embedding +
          ImprovedSim.w_combined * ImprovedSim.cosine_similarity
              d1.embeddings.combined_embedding d2.embeddings.combined_embedding +
          ImprovedSim.w_metadata *
            (ImprovedSim.calculate_metadata_similarity d1.metadata d2.metadata).1) ∧
      ((st.improvedCache.lookup p = none ∨ st.improvedCache.lookup s = none) →
        Backend.calculate_narrative_similarity st p s =
          Backend.cosine_similarity (Backend.vecOf st p) (Backend.vecOf st s)) := by
  constructor
  · norm_num [ImprovedSim.w_career, ImprovedSim.w_achievement, ImprovedSim.w_biographical,
      ImprovedSim.w_influence, ImprovedSim.w_combined, ImprovedSim.w_metadata]
  · intro st p s d1 d2
    constructor
    · intro h1 h2
      unfold Backend.calculate_narrative_similarity
      rw [h1, h2]
      simp [ImprovedSim.calculate_improved_narrative_similarity]
    · intro h
      rcases h with h | h
      · unfold Backend.calculate_narrative_similarity
        rw [h]
      · unfold Backend.calculate_narrative_similarity
        rw [h]
        cases hp : st.improvedCache.lookup p <;> rfl

/-- Witness for C7 on the unloaded state (fallback path). -/
theorem C7_narrative_paths_witness :
    Backend.calculate_narrative_similarity stEmpty "p" "s" =
      Backend.cosine_similarity (Backend.vecOf stEmpty "p") (Backend.vecOf stEmpty "s") :=
  (C7_narrative_paths.2 stEmpty "p" "s"
      ⟨⟨[], [], [], [], []⟩, ⟨none, .unknown, 0, ∅⟩⟩
      ⟨⟨[], [], [], [], []⟩, ⟨none, .unknown, 0, ∅⟩⟩).2 (Or.inl rfl)

/-- C1: for every candidate and target, the aggregated final score equals
`0.5 * narrative + 0.3 * factual + 0.2 * relational`, with factual and
relational the Jaccard similarities over `factual_qids` and
`relational_qids` — both at the level of the per-pair score record and for
every entry of a computed ranking; and in the two-person scenario
(A: narrative `[1,0]`, factual `{occ:singer}`; B: narrative `[0,1]`, same
factual set), `score(B, A)` returns narrative 0.0, factual 1.0,
relational 0.0 and final 0.3. -/
theorem C1_aggregator (st : Backend.ServerState) (sp : Backend.Person)
    (secret_qid qid : String) (pd : Backend.Person) :
    ((Backend.score_item st sp secret_qid qid pd).score =
      0.5 * Backend.calculate_narrative_similarity st qid secret_qid +
      0.3 * Backend.jaccard_similarity pd.factual_qids sp.factual_qids +
      0.2 * Backend.jaccard_similarity pd.relational_qids sp.relational_qids) ∧
    (∀ (r : List Backend.RankItem) (e : Backend.RankItem),
      Backend.calculate_ranking_for_secret st secret_qid = .ok r → e ∈ r →
      e.score = 0.5 * e.sim_narrative + 0.3 * e.sim_factual + 0.2 * e.sim_relational) ∧
    Backend.score_item stAB personA "A" "B" personB = ⟨"B", "B", 0.3, 0.0, 1.0, 0.0⟩ := by
  refine ⟨?_, ?_, ?_⟩
  · norm_num [Backend.score_item, Backend.W_NARRATIVE, Backend.W_FACTUAL,
      Backend.W_RELATIONAL]
  · intro r e hok he
    unfold Backend.calculate_ranking_for_secret at hok
    cases hl : st.personCache.lookup secret_qid with
    | none => rw [hl] at hok; exact absurd hok (by simp)
    | some sp' =>
        rw [hl] at hok
        simp only [Except.ok.injEq] at hok
        subst hok
        have hmem := Backend.mem_addRanks he
        have hmem2 := (List.mem_insertionSort Backend.descScore).mp hmem
        have := Backend.score_formula_of_mem_entries st sp' secret_qid _ hmem2
        have hW : Backend.W_NARRATIVE = 0.5 ∧ Backend.W_FACTUAL = 0.3 ∧
            Backend.W_RELATIONAL = 0.2 := by
          norm_num [Backend.W_NARRATIVE, Backend.W_FACTUAL, Backend.W_RELATIONAL]
        calc e.score = (Backend.stripRank e).score := rfl
          _ = 0.5 * e.sim_narrative + 0.3 * e.sim_factual + 0.2 * e.sim_relational := by
              rw [this, hW.1, hW.2.1, hW.2.2]; rfl
  · norm_num [Backend.score_item, Backend.calculate_narrative_similarity, stAB,
      Backend.vecOf, List.lookup, Backend.cosine_similarity, Np.linalg_norm, Np.dot,
      Real.sqrt_one, Backend.jaccard_similarity, Backend.W_NARRATIVE, Backend.W_FACTUAL,
      Backend.W_RELATIONAL, personA, personB]

/-- Witness for C1: the `B` entry of the scenario ranking satisfies the
weighted-sum equation. -/
theorem C1_aggregator_witness :
    (⟨"B", "B", 2, 0.3, 0.0, 1.0, 0.0⟩ : Backend.RankItem).score =
      0.5 * (⟨"B", "B", 2, 0.3, 0.0, 1.0, 0.0⟩ : Backend.RankItem).sim_narrative +
      0.3 * (⟨"B", "B", 2, 0.3, 0.0, 1.0, 0.0⟩ : Backend.RankItem).sim_factual +
      0.2 * (⟨"B", "B", 2, 0.3, 0.0, 1.0, 0.0⟩ : Backend.RankItem).sim_relational :=
  (C1_aggregator stAB personA "A" "B" personB).2.1 rankedAB
    ⟨"B", "B", 2, 0.3, 0.0, 1.0, 0.0⟩
    (by norm_num [Backend.calculate_ranking_for_secret, stAB, personA, personB,
      List.lookup, Backend.score_item, Backend.calculate_narrative_similarity,
      Backend.vecOf, Backend.cosine_similarity, Np.linalg_norm, Np.dot, Real.sqrt_one,
      Backend.jaccard_similarity, Backend.W_NARRATIVE, Backend.W_FACTUAL,
      Backend.W_RELATIONAL, List.insertionSort, List.orderedInsert, Backend.descScore,
      Backend.addRanks, rankedAB,
      show (("B" : String) == "A") = false from by rfl,
      show (("A" : String) == "B") = false from by rfl])
    (by norm_num [rankedAB])

/-- Counterexample to C2: in the two-person population `stBA` (iteration
order `B` then `A`, every pairwise score `0`), `rank("A")` puts `B` at
rank 1 and the target `A` at rank 2 — the stable sort keeps iteration
order on the all-zero tie, so the target does not rank first. -/
theorem C2_counterexample :
    Backend.calculate_ranking_for_secret stBA "A" = .ok rankedBA ∧
    rankedBA.map Backend.RankItem.qid = ["B", "A"] ∧
    rankedBA.map Backend.RankItem.rank = [1, 2] := by
  refine ⟨?_, by norm_num [rankedBA], by norm_num [rankedBA]⟩
  norm_num [Backend.calculate_ranking_for_secret, stBA, personE, List.lookup,
    Backend.score_item, Backend.calculate_narrative_similarity, Backend.vecOf,
    Backend.cosine_similarity, Np.linalg_norm, Np.dot, Real.sqrt_zero,
    Backend.jaccard_similarity, Backend.W_NARRATIVE, Backend.W_FACTUAL,
    Backend.W_RELATIONAL, List.insertionSort, List.orderedInsert, Backend.descScore,
    Backend.addRanks, rankedBA,
    show (("A" : String) == "B") = false from by rfl]

/-- C2 (amended): `rank(targetId)` places the target itself at rank 1
whenever every other population entry scores strictly below the target's
self-score.  When another entry ties the self-score, the stable descending
sort keeps population iteration order, so a tying candidate that iterates
earlier takes rank 1 instead (as in the counterexample, where the
attribute-less target self-scores 0, tied with the other person). -/
theorem C2_target_rank_one (st : Backend.ServerState)
    (pre post : List (String × Backend.Person)) (secret_qid : String)
    (sp : Backend.Person)
    (hsplit : st.personCache = pre ++ (secret_qid, sp) :: post)
    (hpre : secret_qid ∉ pre.map Prod.fst)
    (hmax : ∀ qp ∈ pre ++ post,
      (Backend.score_item st sp secret_qid qp.1 qp.2).score <
        (Backend.score_item st sp secret_qid secret_qid sp).score) :
    ∃ x t, Backend.calculate_ranking_for_secret st secret_qid = .ok (x :: t) ∧
      x.qid = secret_qid ∧ x.rank = 1 := by
  have hlook : st.personCache.lookup secret_qid = some sp := by
    rw [hsplit]
    exact Backend.lookup_append_cons pre post secret_qid sp hpre
  obtain ⟨t, ht⟩ := Backend.insertionSort_strict_max
    (Backend.score_item st sp secret_qid secret_qid sp)
    (pre.map fun qp => Backend.score_item st sp secret_qid qp.1 qp.2)
    (post.map fun qp => Backend.score_item st sp secret_qid qp.1 qp.2)
    (by
      intro y hy
      rcases List.mem_append.mp hy with hy | hy <;>
      · obtain ⟨qp, hqp, rfl⟩ := List.mem_map.mp hy
        exact hmax qp (List.mem_append.mpr (by tauto)))
  refine ⟨⟨(Backend.score_item st sp secret_qid secret_qid sp).qid,
      (Backend.score_item st sp secret_qid secret_qid sp).label, 0 + 1,
      (Backend.score_item st sp secret_qid secret_qid sp).score,
      (Backend.score_item st sp secret_qid secret_qid sp).sim_narrative,
      (Backend.score_item st sp secret_qid secret_qid sp).sim_factual,
      (Backend.score_item st sp secret_qid secret_qid sp).sim_relational⟩,
    Backend.addRanks 1 t, ?_, rfl, rfl⟩
  unfold Backend.calculate_ranking_for_secret
  rw [hlook]
  simp only [hsplit, List.map_append, List.map_cons, ht, Backend.addRanks]

/-- Witness for C2 (amended) on a one-person population: the target ranks
first (the strict-majorization hypothesis is vacuous). -/
theorem C2_target_rank_one_witness :
    ∃ x t, Backend.calculate_ranking_for_secret stA1 "A" = .ok (x :: t) ∧
      x.qid = "A" ∧ x.rank = 1 :=
  C2_target_rank_one stA1 [] [] "A" (personE "A") rfl (by simp) (by simp)

/-- C3: `rank(targetId)` returns the population's score records sorted in
descending order of final score; ties are stable with respect to the
iteration order over the population (per-score-class, the qid sequence is
unchanged); the output is a permutation of the per-population score
records; and ranks are 1-based with no gaps, assigned by position (entry
`i` gets rank `i + 1`). -/
theorem C3_ranking_sorted_stable_dense (st : Backend.ServerState) (secret_qid : String)
    (sp : Backend.Person) (r : List Backend.RankItem)
    (hsp : st.personCache.lookup secret_qid = some sp)
    (hok : Backend.calculate_ranking_for_secret st secret_qid = .ok r) :
    List.Sorted (fun a b : Backend.RankItem => b.score ≤ a.score) r ∧
    (∀ c : ℝ, (r.filter fun e => e.score = c).map Backend.RankItem.qid =
      ((st.personCache.map fun qp =>
        Backend.score_item st sp secret_qid qp.1 qp.2).filter
          fun x => x.score = c).map Backend.ScoreItem.qid) ∧
    (r.map Backend.stripRank).Perm
      (st.personCache.map fun qp => Backend.score_item st sp secret_qid qp.1 qp.2) ∧
    (∀ i (h : i < r.length), (r.get ⟨i, h⟩).rank = i + 1) := by
  unfold Backend.calculate_ranking_for_secret at hok
  rw [hsp] at hok
  simp only [Except.ok.injEq] at hok
  subst hok
  refine ⟨?_, ?_, ?_, ?_⟩
  · have hs := List.sorted_insertionSort Backend.descScore
      (st.personCache.map fun qp => Backend.score_item st sp secret_qid qp.1 qp.2)
    rw [← Backend.addRanks_map_stripRank 0 (List.insertionSort Backend.descScore _)] at hs
    exact (List.pairwise_map.mp hs).imp fun h => h
  · intro c
    rw [Backend.filter_map_qid_addRanks c 0
      (List.insertionSort Backend.descScore
        (st.personCache.map fun qp => Backend.score_item st sp secret_qid qp.1 qp.2)),
      Backend.filter_insertionSort_score]
  · rw [Backend.addRanks_map_stripRank 0 (List.insertionSort Backend.descScore _)]
    exact List.perm_insertionSort _ _
  · intro i h
    simpa using Backend.addRanks_get_rank
      (List.insertionSort Backend.descScore
        (st.personCache.map fun qp => Backend.score_item st sp secret_qid qp.1 qp.2)) 0 i h

/-- Witness for C3 on the concrete two-person population `stBA`. -/
theorem C3_ranking_witness :
    List.Sorted (fun a b : Backend.RankItem => b.score ≤ a.score) rankedBA :=
  (C3_ranking_sorted_stable_dense stBA "A" (personE "A") rankedBA
    (by simp [stBA, List.lookup, show (("A" : String) == "B") = false from by rfl])
    (by norm_num [Backend.calculate_ranking_for_secret, stBA, personE, List.lookup,
      Backend.score_item, Backend.calculate_narrative_similarity, Backend.vecOf,
      Backend.cosine_similarity, Np.linalg_norm, Np.dot, Real.sqrt_zero,
      Backend.jaccard_similarity, Backend.W_NARRATIVE, Backend.W_FACTUAL,
      Backend.W_RELATIONAL, List.insertionSort, List.orderedInsert, Backend.descScore,
      Backend.addRanks, rankedBA,
      show (("A" : String) == "B") = false from by rfl])).1

/-- Counterexample to C4: on the unloaded state (empty `PERSON_CACHE`),
the ranking endpoint raises `notFound` (404), not `notReady` (503) — the
`daily_ranking` endpoint has no not-loaded check, so an unloaded
population surfaces as an unknown id. -/
theorem C4_counterexample :
    Backend.get_daily_ranking stEmpty "Q1" = .error .notFound ∧
    Backend.ApiError.notFound ≠ Backend.ApiError.notReady :=
  ⟨rfl, by decide⟩

/-- C4 (amended): `rank` and the guess path raise `notFound` for an id
absent from the population (never silently scoring it as 0), and the
guess path raises `notReady` before the population has been loaded; the
`rank` endpoint, which has no not-loaded check of its own, instead raises
`notFound` before load (every id is absent from the empty population) and
never returns an empty or partial ranking. -/
theorem C4_error_kinds :
    (∀ (st : Backend.ServerState) (q : String), st.personCache.lookup q = none →
      Backend.get_daily_ranking st q = .error .notFound) ∧
    (∀ (st : Backend.ServerState) (sid q : String) (session : Backend.Session),
      st.personCache.isEmpty = false →
      st.sessions.lookup sid = some session →
      session.is_game_won = false → session.is_resigned = false →
      st.personCache.lookup q = none →
      (Backend.make_guess st sid q).1 = .error .notFound) ∧
    (∀ (st : Backend.ServerState) (sid q : String), st.personCache.isEmpty = true →
      (Backend.make_guess st sid q).1 = .error .notReady) ∧
    (∀ (st : Backend.ServerState) (q : String) (r : List Backend.RankItem),
      st.personCache = [] → Backend.get_daily_ranking st q ≠ .ok r) := by
  refine ⟨?_, ?_, ?_, ?_⟩
  · intro st q h
    unfold Backend.get_daily_ranking
    rw [h]
  · intro st sid q session hempty hsess hwon hres hq
    unfold Backend.make_guess
    rw [if_neg (by simp [hempty]), hsess]
    simp only [hwon, hres, Bool.or_self, Bool.false_eq_true, if_false, hq]
    rfl
  · intro st sid q h
    unfold Backend.make_guess
    rw [if_pos (by simp [h])]
  · intro st q r hcache hok
    unfold Backend.get_daily_ranking at hok
    rw [hcache] at hok
    simp [List.lookup] at hok

/-- Witness for C4 (amended) at concrete states. -/
theorem C4_error_kinds_witness :
    Backend.get_daily_ranking stEmpty "Q1" = .error .notFound ∧
    (Backend.make_guess stEmpty "s" "q").1 = .error .notReady :=
  ⟨C4_error_kinds.1 stEmpty "Q1" rfl, C4_error_kinds.2.2.1 stEmpty "s" "q" rfl⟩

/-- C10: `make_guess` is atomic on error — every error outcome leaves the
whole server state unchanged (nothing appended to the guess log, flags
preserved) — and on success the only change is to the addressed session:
its guess log grows by the scored result and its win flag becomes the
correctness of the guess (the session was unfinished, so the flag is set
exactly on a correct guess); resignation and both caches are untouched. -/
theorem C10_guess_atomic (st : Backend.ServerState) (sessionId guessed_qid : String) :
    (∀ e, (Backend.make_guess st sessionId guessed_qid).1 = .error e →
      (Backend.make_guess st sessionId guessed_qid).2 = st) ∧
    (∀ resp, (Backend.make_guess st sessionId guessed_qid).1 = .ok resp →
      ∃ session, st.sessions.lookup sessionId = some session ∧
        session.is_game_won = false ∧ session.is_resigned = false ∧
        (Backend.make_guess st sessionId guessed_qid).2.personCache = st.personCache ∧
        (Backend.make_guess st sessionId guessed_qid).2.improvedCache = st.improvedCache ∧
        (Backend.make_guess st sessionId guessed_qid).2.sessions =
          Backend.updateSessions st.sessions sessionId
            { session with
                is_game_won := resp.isCorrect,
                guesses := session.guesses ++ [resp.result] } ∧
        resp.isCorrect = (guessed_qid == session.secret_qid)) := by
  unfold Backend.make_guess
  by_cases hempty : st.personCache.isEmpty
  · rw [if_pos hempty]
    exact ⟨fun e _ => rfl, fun resp h => by simp at h⟩
  · rw [if_neg hempty]
    cases hsess : st.sessions.lookup sessionId with
    | none => exact ⟨fun e _ => rfl, fun resp h => by simp at h⟩
    | some session =>
      dsimp only
      by_cases hfin : (session.is_game_won || session.is_resigned) = true
      · rw [if_pos hfin]
        exact ⟨fun e _ => rfl, fun resp h => by simp at h⟩
      · rw [if_neg hfin]
        have hflags := Bool.or_eq_false_iff.mp (Bool.not_eq_true _ |>.mp hfin)
        by_cases hmiss : (st.personCache.lookup guessed_qid).isNone
        · rw [if_pos hmiss]
          exact ⟨fun e _ => rfl, fun resp h => by simp at h⟩
        · rw [if_neg hmiss]
          cases hrank : Backend.calculate_ranking_for_secret st session.secret_qid with
          | error e' => exact ⟨fun e _ => rfl, fun resp h => by simp at h⟩
          | ok ranking =>
            dsimp only
            cases hfind : ranking.find? (fun item => item.qid == guessed_qid) with
            | none => exact ⟨fun e _ => rfl, fun resp h => by simp at h⟩
            | some guessed_result =>
              dsimp only
              constructor
              · intro e h
                simp at h
              · intro resp h
                simp only [Except.ok.injEq] at h
                subst h
                refine ⟨session, rfl, hflags.1, hflags.2, rfl, rfl, ?_, rfl⟩
                have hwon : (if (guessed_qid == session.secret_qid) = true then true
                    else session.is_game_won) = (guessed_qid == session.secret_qid) := by
                  cases hc : (guessed_qid == session.secret_qid) <;> simp [hc, hflags.1]
                dsimp only
                rw [hwon]

/-- Witness for C10: a failing guess (unloaded population) leaves the
state unchanged. -/
theorem C10_guess_atomic_witness :
    (Backend.make_guess stEmpty "s" "q").2 = stEmpty :=
  (C10_guess_atomic stEmpty "s" "q").1 .notReady rfl
